import Mathlib

/-!
Verification of the mock-interview backend (Backend/Server.py).

The Python service is embedded shallowly: external effects (speech
recognition, the hosted chat-completion provider, text-to-speech) become
explicit function parameters, the process-wide company-profile table
becomes an explicit server state threaded through every handler, and
request-body validation by the pydantic schemas becomes explicit parse
functions on optional fields.
-/

namespace Server

/-- Outcome of the external speech-recognition call made inside
capture_voice_text: recognized text, an UnknownValueError, or a
RequestError from the recognition service. -/
inductive RecognitionOutcome where
  | success (text : String)
  | unknownValue
  | requestError
deriving DecidableEq, Repr

/-- Embedding of capture_voice_text: the recognized text on success, and
one of two fixed sentinel strings on the two caught exception kinds.
No outcome escapes as an exception; the result is always a string. -/
def capture_voice_text : RecognitionOutcome → String
  | .success text => text
  | .unknownValue => "Sorry, I could not understand."
  | .requestError => "Speech recognition service failed."

/-- A single chat message as sent to the completion provider. -/
structure ChatMessage where
  content_role : String
  content : String
deriving DecidableEq, Repr

/-- The request the completion client sends to the provider. -/
structure ChatRequest where
  model : String
  messages : List ChatMessage
deriving DecidableEq, Repr

/-- One choice of the provider response. -/
structure ChatChoice where
  message : ChatMessage
deriving DecidableEq, Repr

/-- The provider response: a list of choices. -/
structure ChatResponse where
  choices : List ChatChoice
deriving DecidableEq, Repr

/-- The request built by ask_together_ai for a prompt: the configured
model name and a single-turn message with role "user". -/
def sentRequest (modelName prompt : String) : ChatRequest :=
  ⟨modelName, [⟨"user", prompt⟩]⟩

/-- Embedding of ask_together_ai: builds the single-turn request, calls
the provider, and extracts the content of the first choice of the
response. Indexing choices[0] is fallible, so the result is an Option. -/
def ask_together_ai (modelName : String) (provider : ChatRequest → ChatResponse)
    (prompt : String) : Option String :=
  ((provider (sentRequest modelName prompt)).choices.head?).map
    (fun c => c.message.content)

/-- Embedding of the module-level company_profiles dictionary. -/
def company_profiles : List (String × String) :=
  [("Google", "Focus on algorithms, system design, and problem-solving depth."),
   ("Infosys", "Practical coding, OOP basics, and database concepts."),
   ("Microsoft", "System design, product sense, and engineering trade-offs."),
   ("TCS", "Practical coding, aptitude questions, and basic problem-solving.")]

/-- The process-wide mutable state of the server: the company-profile
table. Handlers are embedded as state transformers so that (absence of)
mutation is visible. -/
structure ServerState where
  profiles : List (String × String)
deriving DecidableEq, Repr

/-- The server state at startup: the profile table as initialized. -/
def initState : ServerState := ⟨company_profiles⟩

/-- Embedding of the pydantic QuestionRequest schema. -/
structure QuestionRequest where
  company : String
  role : String
deriving DecidableEq, Repr

/-- Validation of a request body against QuestionRequest: both fields
carry defaults, so any combination of present and absent fields
validates. -/
def QuestionRequest.parse (company role : Option String) : QuestionRequest :=
  ⟨company.getD "General", role.getD "Engineer"⟩

/-- Embedding of the pydantic EvalRequest schema. -/
structure EvalRequest where
  company : String
  question : String
  answer : String
deriving DecidableEq, Repr

/-- Validation of a request body against EvalRequest: question and
answer are required (no default), company defaults to "General".
A body missing question or answer fails validation. -/
def EvalRequest.parse (company question answer : Option String) :
    Option EvalRequest :=
  match question, answer with
  | some q, some a => some ⟨company.getD "General", q, a⟩
  | _, _ => none

/-- The style string used by evaluate_answer: the profile-table entry
for the company, or the default when the key is absent. -/
def evalStyle (profiles : List (String × String)) (company : String) : String :=
  (profiles.lookup company).getD "Balanced."

/-- The prompt built by evaluate_answer. -/
def evalPrompt (profiles : List (String × String)) (req : EvalRequest) : String :=
  "Company: " ++ req.company ++ ", Style: " ++ evalStyle profiles req.company ++ "\n" ++
  "Question: " ++ req.question ++ "\n" ++
  "Answer: " ++ req.answer ++ "\n\n" ++
  "Evaluate correctness (correct/partial/incorrect), clarity, and suggest improvement. " ++
  "Return JSON with fields correctness, explanation, improvements."

/-- The style string used by generate_questions: the profile-table entry
for the company, or the (different) default when the key is absent. -/
def genStyle (profiles : List (String × String)) (company : String) : String :=
  (profiles.lookup company).getD "Balanced technical + behavioral."

/-- The prompt built by generate_questions. -/
def genPrompt (profiles : List (String × String)) (req : QuestionRequest) : String :=
  "Generate 5 interview questions for " ++ req.role ++ " role at " ++ req.company ++ ". " ++
  "Company style: " ++ genStyle profiles req.company ++ ". " ++
  "Return JSON array with fields id, question, type, hint."

/-- The prompt built by the /ask handler. -/
def askPrompt (req : QuestionRequest) (voice_text : String) : String :=
  "You are interviewing for " ++ req.role ++ " at " ++ req.company ++
  ". Question: " ++ voice_text

/-- JSON response of the /ask handler. -/
structure AskResponse where
  user_speech : String
  ai_reply_text : String
  ai_reply_audio : String
deriving DecidableEq, Repr

/-- Streaming response of the /speak handler: a media type and the audio
bytes. -/
structure SpeakResponse where
  media_type : String
  body : List Nat
deriving DecidableEq, Repr

/-- JSON response of the /evaluate-answer handler. -/
structure EvalResponse where
  evaluation : String
deriving DecidableEq, Repr

/-- JSON response of the /generate-questions handler. -/
structure QuestionsResponse where
  company : String
  role : String
  questions : String
deriving DecidableEq, Repr

/-- Embedding of the /ask handler ask_ai: captures voice text, builds
the prompt, calls the completion client, synthesizes audio from the
reply (the buffer is discarded), and answers with the transcript, the
reply text, and the fixed path "/speak". -/
def ask_ai (st : ServerState) (recognition : RecognitionOutcome)
    (complete : String → String) (tts : String → List Nat)
    (request : QuestionRequest) : ServerState × AskResponse :=
  let voice_text := capture_voice_text recognition
  let prompt := askPrompt request voice_text
  let ai_reply := complete prompt
  let _audio_buf := tts ai_reply
  (st, ⟨voice_text, ai_reply, "/speak"⟩)

/-- Embedding of the /speak handler: synthesizes the fixed demo sentence
and streams it with media type audio/mpeg. It takes no request input. -/
def speak (st : ServerState) (tts : String → List Nat) :
    ServerState × SpeakResponse :=
  let sample_text := "This is a demo speech reply."
  let audio_buf := tts sample_text
  (st, ⟨"audio/mpeg", audio_buf⟩)

/-- Embedding of the /evaluate-answer handler: looks up the style,
builds the evaluation prompt, calls the completion client, and wraps
the raw reply under the evaluation field. -/
def evaluate_answer (st : ServerState) (complete : String → String)
    (req : EvalRequest) : ServerState × EvalResponse :=
  let ai_eval := complete (evalPrompt st.profiles req)
  (st, ⟨ai_eval⟩)

/-- Embedding of the /generate-questions handler: looks up the style,
builds the prompt, calls the completion client, and answers with the
echoed company and role and the raw reply under questions. -/
def generate_questions (st : ServerState) (complete : String → String)
    (req : QuestionRequest) : ServerState × QuestionsResponse :=
  let questions := complete (genPrompt st.profiles req)
  (st, ⟨req.company, req.role, questions⟩)

/-- The /evaluate-answer route including body validation: the handler
body runs only when the body validates against EvalRequest. -/
def evaluate_answer_route (st : ServerState) (complete : String → String)
    (company question answer : Option String) :
    Option (ServerState × EvalResponse) :=
  (EvalRequest.parse company question answer).map (evaluate_answer st complete)

/-- A string s contains pat as a contiguous substring. -/
def strContains (s pat : String) : Prop := ∃ x y, s = x ++ pat ++ y

/-- A company string that differs from all four profile keys is not
found by the profile-table lookup. -/
theorem lookup_eq_none_of_unknown (c : String)
    (h1 : c ≠ "Google") (h2 : c ≠ "Infosys") (h3 : c ≠ "Microsoft")
    (h4 : c ≠ "TCS") : company_profiles.lookup c = none := by
  simp [company_profiles, List.lookup, beq_eq_false_iff_ne.mpr h1,
    beq_eq_false_iff_ne.mpr h2, beq_eq_false_iff_ne.mpr h3,
    beq_eq_false_iff_ne.mpr h4]

/-- Claim C1: for every request whose company is not one of the profile
keys, evaluate_answer builds its prompt with the style string
"Balanced." and generate_questions builds its prompt with the style
string "Balanced technical + behavioral.", and the two defaults are not
equal to each other. -/
theorem unknown_company_default_styles (c q a r : String)
    (h1 : c ≠ "Google") (h2 : c ≠ "Infosys") (h3 : c ≠ "Microsoft")
    (h4 : c ≠ "TCS") :
    evalStyle company_profiles c = "Balanced." ∧
    genStyle company_profiles c = "Balanced technical + behavioral." ∧
    evalPrompt company_profiles ⟨c, q, a⟩ =
      "Company: " ++ c ++ ", Style: " ++ "Balanced." ++ "\n" ++
      "Question: " ++ q ++ "\n" ++
      "Answer: " ++ a ++ "\n\n" ++
      "Evaluate correctness (correct/partial/incorrect), clarity, and suggest improvement. " ++
      "Return JSON with fields correctness, explanation, improvements." ∧
    genPrompt company_profiles ⟨c, r⟩ =
      "Generate 5 interview questions for " ++ r ++ " role at " ++ c ++ ". " ++
      "Company style: " ++ "Balanced technical + behavioral." ++ ". " ++
      "Return JSON array with fields id, question, type, hint." ∧
    ("Balanced." : String) ≠ "Balanced technical + behavioral." := by
  have hn := lookup_eq_none_of_unknown c h1 h2 h3 h4
  exact ⟨by simp [evalStyle, hn], by simp [genStyle, hn],
    by simp [evalPrompt, evalStyle, hn], by simp [genPrompt, genStyle, hn],
    by decide⟩

/-- Witness for C1 at the unknown company "Acme". -/
theorem unknown_company_default_styles_witness :
    evalStyle company_profiles "Acme" = "Balanced." ∧
    genStyle company_profiles "Acme" = "Balanced technical + behavioral." :=
  ⟨(unknown_company_default_styles "Acme" "q" "a" "r"
      (by decide) (by decide) (by decide) (by decide)).1,
   (unknown_company_default_styles "Acme" "q" "a" "r"
      (by decide) (by decide) (by decide) (by decide)).2.1⟩

/-- Claim C2: speech capture always yields a plain string: the two
sentinel literals on the two error outcomes and the recognized text on
success, and the user_speech field of the /ask response equals that
string. -/
theorem capture_result_is_string_and_surfaced (st : ServerState)
    (outcome : RecognitionOutcome) (complete : String → String)
    (tts : String → List Nat) (req : QuestionRequest) :
    (ask_ai st outcome complete tts req).2.user_speech =
      capture_voice_text outcome ∧
    capture_voice_text RecognitionOutcome.unknownValue =
      "Sorry, I could not understand." ∧
    capture_voice_text RecognitionOutcome.requestError =
      "Speech recognition service failed." ∧
    (∀ t : String, capture_voice_text (RecognitionOutcome.success t) = t) :=
  ⟨rfl, rfl, rfl, fun _ => rfl⟩

/-- Claim C3: for every request body, present or absent fields alike,
the /ask response maps ai_reply_audio to the literal "/speak". -/
theorem ask_audio_field_is_speak (st : ServerState)
    (outcome : RecognitionOutcome) (complete : String → String)
    (tts : String → List Nat) (company role : Option String) :
    (ask_ai st outcome complete tts
      (QuestionRequest.parse company role)).2.ai_reply_audio = "/speak" :=
  rfl

/-- Claim C4: the /speak handler, which takes no request input, always
answers with media type audio/mpeg and with the synthesis of the one
fixed demo sentence. -/
theorem speak_fixed_demo_audio (st : ServerState) (tts : String → List Nat) :
    (speak st tts).2.media_type = "audio/mpeg" ∧
    (speak st tts).2.body = tts "This is a demo speech reply." :=
  ⟨rfl, rfl⟩

/-- Claim C5: with the identity completion client, the evaluation field
of the /evaluate-answer response contains the question text and the
answer text of the request verbatim as substrings. -/
theorem evaluation_contains_question_and_answer (st : ServerState)
    (req : EvalRequest) :
    strContains (evaluate_answer st id req).2.evaluation req.question ∧
    strContains (evaluate_answer st id req).2.evaluation req.answer := by
  constructor
  · exact ⟨"Company: " ++ req.company ++ ", Style: " ++
        evalStyle st.profiles req.company ++ "\n" ++ "Question: ",
      "\n" ++ "Answer: " ++ req.answer ++ "\n\n" ++
      "Evaluate correctness (correct/partial/incorrect), clarity, and suggest improvement. " ++
      "Return JSON with fields correctness, explanation, improvements.",
      by simp [evaluate_answer, evalPrompt, String.append_assoc]⟩
  · exact ⟨"Company: " ++ req.company ++ ", Style: " ++
        evalStyle st.profiles req.company ++ "\n" ++ "Question: " ++
        req.question ++ "\n" ++ "Answer: ",
      "\n\n" ++
      "Evaluate correctness (correct/partial/incorrect), clarity, and suggest improvement. " ++
      "Return JSON with fields correctness, explanation, improvements.",
      by simp [evaluate_answer, evalPrompt, String.append_assoc]⟩

/-- Claim C6: for every request and every completion-client behaviour,
the /generate-questions response echoes the company and role of the
request exactly. -/
theorem generate_questions_echoes_company_role (st : ServerState)
    (complete : String → String) (req : QuestionRequest) :
    (generate_questions st complete req).2.company = req.company ∧
    (generate_questions st complete req).2.role = req.role :=
  ⟨rfl, rfl⟩

/-- Claim C7: for every prompt, the completion client sends a request
carrying the configured model identifier and a single-turn message with
role "user" holding the prompt, and returns the content of the first
choice of the provider response. -/
theorem completion_client_contract (modelName prompt : String)
    (provider : ChatRequest → ChatResponse) (c : ChatChoice)
    (cs : List ChatChoice)
    (h : (provider (sentRequest modelName prompt)).choices = c :: cs) :
    (sentRequest modelName prompt).model = modelName ∧
    (sentRequest modelName prompt).messages = [⟨"user", prompt⟩] ∧
    ask_together_ai modelName provider prompt = some c.message.content := by
  exact ⟨rfl, rfl, by simp [ask_together_ai, h]⟩

/-- Witness for C7 with a one-choice provider. -/
theorem completion_client_contract_witness :
    ask_together_ai "model-x" (fun _ => ⟨[⟨⟨"assistant", "pong"⟩⟩]⟩) "ping" =
      some "pong" :=
  (completion_client_contract "model-x" "ping"
    (fun _ => ⟨[⟨⟨"assistant", "pong"⟩⟩]⟩) ⟨⟨"assistant", "pong"⟩⟩ [] rfl).2.2

/-- Claim C8: the profile table is fixed at startup to exactly the four
entries Google, Infosys, Microsoft, TCS, and every handler invocation
leaves the server state, hence the table, unchanged. -/
theorem profiles_fixed_and_never_mutated :
    initState.profiles =
      [("Google", "Focus on algorithms, system design, and problem-solving depth."),
       ("Infosys", "Practical coding, OOP basics, and database concepts."),
       ("Microsoft", "System design, product sense, and engineering trade-offs."),
       ("TCS", "Practical coding, aptitude questions, and basic problem-solving.")] ∧
    (∀ (st : ServerState) (outcome : RecognitionOutcome)
       (complete : String → String) (tts : String → List Nat)
       (req : QuestionRequest), (ask_ai st outcome complete tts req).1 = st) ∧
    (∀ (st : ServerState) (tts : String → List Nat), (speak st tts).1 = st) ∧
    (∀ (st : ServerState) (complete : String → String) (req : EvalRequest),
      (evaluate_answer st complete req).1 = st) ∧
    (∀ (st : ServerState) (complete : String → String) (req : QuestionRequest),
      (generate_questions st complete req).1 = st) :=
  ⟨rfl, fun _ _ _ _ _ => rfl, fun _ _ => rfl, fun _ _ _ => rfl,
   fun _ _ _ => rfl⟩

/-- Claim C9: an omitted company defaults to "General" and an omitted
role to "Engineer"; "General" is not a profile key, so every defaulted
request takes the unknown-company fallback style in generate_questions. -/
theorem omitted_fields_default_general_engineer (c r : Option String) :
    (QuestionRequest.parse none r).company = "General" ∧
    (QuestionRequest.parse c none).role = "Engineer" ∧
    company_profiles.lookup "General" = none ∧
    (∀ rv : Option String,
      genStyle company_profiles (QuestionRequest.parse none rv).company =
        "Balanced technical + behavioral.") :=
  ⟨rfl, rfl, by decide, fun _ => rfl⟩

/-- Claim C10: a body missing question or answer fails EvalRequest
validation, so the route yields no handler result, independently of the
completion client; only company carries a default, "General". -/
theorem eval_validation_rejects_missing_fields (c q a : Option String)
    (h : q = none ∨ a = none) :
    EvalRequest.parse c q a = none ∧
    (∀ (st : ServerState) (complete : String → String),
      evaluate_answer_route st complete c q a = none) ∧
    (∀ (st : ServerState) (complete complete2 : String → String),
      evaluate_answer_route st complete c q a =
        evaluate_answer_route st complete2 c q a) ∧
    (∀ q2 a2 : String,
      EvalRequest.parse none (some q2) (some a2) = some ⟨"General", q2, a2⟩) := by
  have hp : EvalRequest.parse c q a = none := by
    rcases h with h | h
    · subst h; cases a <;> rfl
    · subst h; cases q <;> rfl
  exact ⟨hp, fun st complete => by simp [evaluate_answer_route, hp],
    fun st complete complete2 => by simp [evaluate_answer_route, hp],
    fun _ _ => rfl⟩

/-- Witness for C10 at a body with answer present but question absent. -/
theorem eval_validation_rejects_missing_fields_witness :
    EvalRequest.parse (some "Google") none (some "my answer") = none :=
  (eval_validation_rejects_missing_fields (some "Google") none
    (some "my answer") (Or.inl rfl)).1

end Server
